import Mathlib

/-!
Verification of `spotify_data_collector.py`, a sequential ETL script that
pulls a user's saved tracks, playlists, the first playlist's tracks, audio
features and recently played history from a paginated REST API and writes
each dataset to a timestamped JSON snapshot file.

The script manipulates Python dicts/lists decoded from JSON, so the
embedding works over a small JSON value type `JVal` with the Python
operations the script uses: `dict.get` (with and without a default),
truthiness, and the `or` fallback idiom `x or {}`.  External collaborators
(the HTTP client, the OAuth manager, the filesystem and the wall clock) are
parameters of the embedded functions; the script's own logic is translated
line by line.  Logging calls have no data effect and are not modelled.
-/

/-- JSON-ish values as the Python script sees them (dicts, lists, strings,
integers, booleans, null).  The script only handles integral numbers
(durations, popularity), so numbers are `Int`. -/
inductive JVal where
  | null
  | str (s : String)
  | num (n : Int)
  | bool (b : Bool)
  | arr (xs : List JVal)
  | obj (fields : List (String × JVal))

/-- Python truthiness of a value: `None`, `""`, `0`, `False`, `[]` and `{}`
are falsy, everything else is truthy. -/
def JVal.truthy : JVal → Bool
  | .null => false
  | .str s => !s.isEmpty
  | .num n => n != 0
  | .bool b => b
  | .arr xs => !xs.isEmpty
  | .obj fs => !fs.isEmpty

/-- Python `d.get(k, default)`: the value stored under the first occurrence
of key `k`, or `default` when the key is absent.  The script only calls
`.get` on dicts; on non-dict values this total model returns the default
(Python would raise `AttributeError`, a path no claim exercises and every
theorem below applies this only to dict-shaped data). -/
def JVal.getD (v : JVal) (k : String) (d : JVal) : JVal :=
  match v with
  | .obj fs =>
    match fs.lookup k with
    | some x => x
    | none => d
  | _ => d

/-- Python `d.get(k)`, defaulting to `None`. -/
def JVal.get (v : JVal) (k : String) : JVal :=
  v.getD k .null

/-- Python `a or b`: `a` when truthy, else `b`. -/
def JVal.orElse (a b : JVal) : JVal :=
  if a.truthy then a else b

/-- Iterating a JSON list.  The script iterates values that are lists
(`items`, `artists`); on non-list values this total model yields nothing
(Python would raise `TypeError`, a path no claim exercises). -/
def JVal.asList : JVal → List JVal
  | .arr xs => xs
  | _ => []

/-- Whether the value is a dict. -/
def JVal.isObj : JVal → Bool
  | .obj _ => true
  | _ => false

/-- Python `str(v)` for the scalar values the script interpolates into
file names (`f"playlist_{pl_id}_tracks"`). -/
def JVal.pyStr : JVal → String
  | .null => "None"
  | .str s => s
  | .num n => toString n
  | .bool b => if b then "True" else "False"
  | .arr _ => "[...]"
  | .obj _ => "\x7b...\x7d"

/-- `chunk(seq, size)` from the script: `for i in range(0, len(seq), size):
yield seq[i : i + size]`.  For `size ≥ 1` the slice loop is exactly the
take/drop recursion below; the script's type hint is `List[str]` but the
slicing is generic, and the guard on `size = 0` only closes the case where
Python's `range` would raise `ValueError` (never reached by the script,
which passes the constant 100). -/
def chunk {α : Type} (seq : List α) (size : Nat) : List (List α) :=
  if seq.isEmpty then []
  else if size = 0 then []
  else seq.take size :: chunk (seq.drop size) size
termination_by seq.length
decreasing_by
  simp only [List.length_drop]
  have hlen : seq.length ≠ 0 := by
    simpa [List.isEmpty_iff_length_eq_zero] using (by assumption : ¬seq.isEmpty = true)
  omega

/-- `AUDIO_FEATURES_BATCH = 100`, the API maximum per audio-features call. -/
def AUDIO_FEATURES_BATCH : Nat := 100

/-- One page of a paginated endpoint, as `_gather_items` reads it: the
page's `items` list and the truthiness of its continuation field (the
script only tests `page.get("next")` for truthiness before handing the
page to `sp.next`, so the cursor itself is abstracted to that Bool). -/
structure Page (α : Type) where
  items : List α
  next : Bool

/-- The `while page.get("next")` loop of `_gather_items`.  `page` is the
page currently held; `rest` is the stream of pages that successive
`sp.next` calls would return.  Returns the items the loop appends and the
number of `sp.next` calls it makes.  When the loop would call `sp.next`
beyond the supplied stream the model stops; that case is excluded by the
`pagesChain` hypothesis of the theorems. -/
def gatherLoop {α : Type} (page : Page α) : List (Page α) → List α × Nat
  | [] => ([], 0)
  | p :: rs =>
    if page.next then
      let r := gatherLoop p rs
      (p.items ++ r.1, r.2 + 1)
    else ([], 0)

/-- `SpotifyCollector._gather_items`: the first `fn(**kwargs)` call yields
`first`; the pages that successive `sp.next` calls would yield are `rest`.
Result: the accumulated `items` list and the total number of fetch calls
(the initial `fn` call plus one `sp.next` call per further page). -/
def gatherItems {α : Type} (first : Page α) (rest : List (Page α)) : List α × Nat :=
  let r := gatherLoop first rest
  (first.items ++ r.1, r.2 + 1)

/-- A well-formed page sequence as the API returns it: every page except
the last carries a truthy continuation cursor, and the last page's cursor
is falsy. -/
def pagesChain {α : Type} : List (Page α) → Bool
  | [] => true
  | [p] => !p.next
  | p :: q :: rs => p.next && pagesChain (q :: rs)

/-- The flat record built by `collect_saved_tracks` for one library entry
(the dict literal at lines 99-113 of the script).  Field values are the
`JVal`s the dict lookups produce (`JVal.null` models Python `None`). -/
structure SavedTrackRecord where
  added_at : JVal
  track_id : JVal
  track_name : JVal
  artist_ids : List JVal
  artist_names : List JVal
  album_id : JVal
  album_name : JVal
  duration_ms : JVal
  popularity : JVal
  external_url : JVal
  preview_url : JVal
  is_local : JVal

/-- The body of the `for row in raw` loop of `collect_saved_tracks`:
`track = row.get("track") or {}`; entries with a falsy `track` are skipped
(`continue`), all others are appended as a flat record. -/
def normalizeSavedTrack (row : JVal) : Option SavedTrackRecord :=
  let track := (row.get "track").orElse (.obj [])
  if track.truthy then
    some
      { added_at := row.get "added_at"
        track_id := track.get "id"
        track_name := track.get "name"
        artist_ids := (track.getD "artists" (.arr [])).asList.map (fun a => a.get "id")
        artist_names := (track.getD "artists" (.arr [])).asList.map (fun a => a.get "name")
        album_id := ((track.get "album").orElse (.obj [])).get "id"
        album_name := ((track.get "album").orElse (.obj [])).get "name"
        duration_ms := track.get "duration_ms"
        popularity := track.get "popularity"
        external_url := ((track.get "external_urls").orElse (.obj [])).get "spotify"
        preview_url := track.get "preview_url"
        is_local := track.getD "is_local" (.bool false) }
  else none

/-- `SpotifyCollector.collect_saved_tracks`: paginate the library endpoint
(`first`/`rest` are the pages `current_user_saved_tracks` and `sp.next`
return), normalize each raw entry, dump one snapshot.  Returns the
processed records and the prefixes of the files written by `dump_json`. -/
def collect_saved_tracks (first : Page JVal) (rest : List (Page JVal)) :
    List SavedTrackRecord × List String :=
  let raw := (gatherItems first rest).1
  (raw.filterMap normalizeSavedTrack, ["saved_tracks"])

/-- The flat record built by `collect_playlists` for one playlist (the
dict literal at lines 125-136 of the script). -/
structure PlaylistRecord where
  playlist_id : JVal
  playlist_name : JVal
  owner_id : JVal
  owner_name : JVal
  description : JVal
  public : JVal
  collaborative : JVal
  track_count : JVal
  snapshot_id : JVal
  external_url : JVal

/-- The body of the `for pl in raw` loop of `collect_playlists` (no
filter: every raw playlist is appended). -/
def normalizePlaylist (pl : JVal) : PlaylistRecord :=
  { playlist_id := pl.get "id"
    playlist_name := pl.get "name"
    owner_id := ((pl.get "owner").orElse (.obj [])).get "id"
    owner_name := ((pl.get "owner").orElse (.obj [])).get "display_name"
    description := pl.get "description"
    public := pl.get "public"
    collaborative := pl.get "collaborative"
    track_count := ((pl.get "tracks").orElse (.obj [])).get "total"
    snapshot_id := pl.get "snapshot_id"
    external_url := ((pl.get "external_urls").orElse (.obj [])).get "spotify" }

/-- `SpotifyCollector.collect_playlists`: paginate, normalize every entry,
dump one snapshot. -/
def collect_playlists (first : Page JVal) (rest : List (Page JVal)) :
    List PlaylistRecord × List String :=
  let raw := (gatherItems first rest).1
  (raw.map normalizePlaylist, ["user_playlists"])

/-- The flat record built by `collect_first_playlist_tracks` for one
playlist item (the dict literal at lines 168-183 of the script). -/
structure PlaylistTrackRecord where
  playlist_id : JVal
  added_at : JVal
  added_by_id : JVal
  track_id : JVal
  track_name : JVal
  artist_ids : List JVal
  artist_names : List JVal
  album_id : JVal
  album_name : JVal
  duration_ms : JVal
  popularity : JVal
  external_url : JVal
  preview_url : JVal
  is_local : JVal

/-- The body of the `for it in items` loop of
`collect_first_playlist_tracks`: `track = (it or {}).get("track") or {}`;
items with a falsy `track` are skipped. -/
def normalizePlaylistTrack (pl_id : JVal) (it : JVal) : Option PlaylistTrackRecord :=
  let track := ((it.orElse (.obj [])).get "track").orElse (.obj [])
  if track.truthy then
    some
      { playlist_id := pl_id
        added_at := it.get "added_at"
        added_by_id := ((it.get "added_by").orElse (.obj [])).get "id"
        track_id := track.get "id"
        track_name := track.get "name"
        artist_ids := (track.getD "artists" (.arr [])).asList.map (fun a => a.get "id")
        artist_names := (track.getD "artists" (.arr [])).asList.map (fun a => a.get "name")
        album_id := ((track.get "album").orElse (.obj [])).get "id"
        album_name := ((track.get "album").orElse (.obj [])).get "name"
        duration_ms := track.get "duration_ms"
        popularity := track.get "popularity"
        external_url := ((track.get "external_urls").orElse (.obj [])).get "spotify"
        preview_url := track.get "preview_url"
        is_local := track.getD "is_local" (.bool false) }
  else none

/-- Result of `collect_first_playlist_tracks`: the playlist entry it
selected (None on the empty early exit), the value it returns (`None` on
the early exit, the processed list otherwise) and the prefixes of the
files written. -/
structure FPTResult where
  selected : Option PlaylistRecord
  records : Option (List PlaylistTrackRecord)
  files : List String

/-- `SpotifyCollector.collect_first_playlist_tracks`: `if not playlists:`
log and return None (no file); otherwise take `playlists[0]`, paginate its
items (`fetchPages pl_id` gives the first `playlist_items` page and the
pages `sp.next` returns), normalize, dump one snapshot named
`playlist_<pl_id>_tracks`. -/
def collect_first_playlist_tracks (fetchPages : JVal → Page JVal × List (Page JVal))
    (playlists : List PlaylistRecord) : FPTResult :=
  match playlists with
  | [] => { selected := none, records := none, files := [] }
  | first :: _ =>
    let pl_id := first.playlist_id
    let pages := fetchPages pl_id
    let items := (gatherItems pages.1 pages.2).1
    let processed := items.filterMap (normalizePlaylistTrack pl_id)
    { selected := some first
      records := some processed
      files := ["playlist_" ++ pl_id.pyStr ++ "_tracks"] }

/-- Result of `collect_audio_features_for_tracks`: the argument of each
`sp.audio_features` call in order, the concatenated feature rows the
method returns, and the prefixes of the files written. -/
structure AFResult where
  calls : List (List JVal)
  feats : List JVal
  files : List String

/-- `SpotifyCollector.collect_audio_features_for_tracks`:
`valid_ids = [tid for tid in track_ids if tid]`; if empty, log and return
`[]` with no file; otherwise one `sp.audio_features(group)` call per
`chunk(valid_ids, AUDIO_FEATURES_BATCH)` group, with
`feats = sp.audio_features(group) or []` and falsy entries filtered out,
then one snapshot dump under `pfx`.  `api` models `sp.audio_features`. -/
def collect_audio_features_for_tracks (api : List JVal → JVal)
    (track_ids : List JVal) (pfx : String) : AFResult :=
  let valid_ids := track_ids.filter JVal.truthy
  if valid_ids.isEmpty then { calls := [], feats := [], files := [] }
  else
    let groups := chunk valid_ids AUDIO_FEATURES_BATCH
    let all_feats :=
      groups.foldl (fun acc group => acc ++ ((api group).orElse (.arr [])).asList.filter JVal.truthy) []
    { calls := groups, feats := all_feats, files := [pfx] }

/-- The flat record built by `collect_recently_played` for one play (the
dict literal at lines 219-229 of the script). -/
structure RecentlyPlayedRecord where
  played_at : JVal
  track_id : JVal
  track_name : JVal
  artist_ids : List JVal
  artist_names : List JVal
  album_id : JVal
  album_name : JVal
  context_type : JVal
  context_uri : JVal

/-- The body of the `for row in items` loop of `collect_recently_played`:
`track = (row or {}).get("track") or {}`, then every row is appended —
there is no `if not track: continue` filter in this method. -/
def normalizeRecentlyPlayed (row : JVal) : RecentlyPlayedRecord :=
  let track := ((row.orElse (.obj [])).get "track").orElse (.obj [])
  { played_at := row.get "played_at"
    track_id := track.get "id"
    track_name := track.get "name"
    artist_ids := (track.getD "artists" (.arr [])).asList.map (fun a => a.get "id")
    artist_names := (track.getD "artists" (.arr [])).asList.map (fun a => a.get "name")
    album_id := ((track.get "album").orElse (.obj [])).get "id"
    album_name := ((track.get "album").orElse (.obj [])).get "name"
    context_type := ((row.get "context").orElse (.obj [])).get "type"
    context_uri := ((row.get "context").orElse (.obj [])).get "uri" }

/-- `SpotifyCollector.collect_recently_played`:
`payload = sp.current_user_recently_played(limit=50) or {}`,
`items = payload.get("items", [])`, map every row, dump one snapshot. -/
def collect_recently_played (payload : JVal) : List RecentlyPlayedRecord × List String :=
  let pl := payload.orElse (.obj [])
  let items := (pl.getD "items" (.arr [])).asList
  (items.map normalizeRecentlyPlayed, ["recently_played"])

/-- The list-comprehension at lines 264-266 of the script:
`[t["track_id"] for t in saved_tracks if t.get("track_id") and not
t.get("is_local")]`. -/
def derivedTrackIds (saved_tracks : List SavedTrackRecord) : List JVal :=
  (saved_tracks.filter (fun t => t.track_id.truthy && !t.is_local.truthy)).map
    (fun t => t.track_id)

/-- A wall-clock datetime as `datetime.now()` returns it.  `datetime`
guarantees `1 ≤ year ≤ 9999`, `1 ≤ month ≤ 12`, `1 ≤ day ≤ 31`,
`hour ≤ 23`, `minute ≤ 59`, `second ≤ 59`. -/
structure DateTime where
  year : Nat
  month : Nat
  day : Nat
  hour : Nat
  minute : Nat
  second : Nat

/-- Whether the datetime satisfies the ranges `datetime` guarantees. -/
def DateTime.valid (t : DateTime) : Bool :=
  1 ≤ t.year && t.year ≤ 9999 && 1 ≤ t.month && t.month ≤ 12 &&
    1 ≤ t.day && t.day ≤ 31 && t.hour ≤ 23 && t.minute ≤ 59 && t.second ≤ 59

/-- The characters `strftime("%Y%m%d_%H%M%S")` produces: each field is a
zero-padded fixed-width decimal (width 4 for `%Y`, width 2 for the rest;
`datetime` field ranges keep every field inside that width). -/
def timestampChars (t : DateTime) : List Char :=
  [Nat.digitChar (t.year / 1000 % 10), Nat.digitChar (t.year / 100 % 10),
   Nat.digitChar (t.year / 10 % 10), Nat.digitChar (t.year % 10),
   Nat.digitChar (t.month / 10 % 10), Nat.digitChar (t.month % 10),
   Nat.digitChar (t.day / 10 % 10), Nat.digitChar (t.day % 10), '_',
   Nat.digitChar (t.hour / 10 % 10), Nat.digitChar (t.hour % 10),
   Nat.digitChar (t.minute / 10 % 10), Nat.digitChar (t.minute % 10),
   Nat.digitChar (t.second / 10 % 10), Nat.digitChar (t.second % 10)]

/-- `timestamp()` from the script:
`datetime.now().strftime("%Y%m%d_%H%M%S")`, with the clock reading passed
explicitly. -/
def timestamp (t : DateTime) : String :=
  String.mk (timestampChars t)

/-- `DATA_DIR = Path("spotify_data")`. -/
def DATA_DIR : String := "spotify_data"

/-- The path `dump_json` writes to:
`DATA_DIR / f"{prefix}_{timestamp()}.json"` (the f-string concatenates the
prefix, an underscore, the timestamp and the `.json` suffix). -/
def dump_json_path (pfx : String) (t : DateTime) : String :=
  DATA_DIR ++ "/" ++ (pfx ++ "_" ++ timestamp t ++ ".json")

/-- `("SPOTIPY_CLIENT_ID", "SPOTIPY_CLIENT_SECRET", "SPOTIPY_REDIRECT_URI")`,
the tuple the entry point's validation loop iterates, in order. -/
def requiredVars : List String :=
  ["SPOTIPY_CLIENT_ID", "SPOTIPY_CLIENT_SECRET", "SPOTIPY_REDIRECT_URI"]

/-- Truthiness of `os.getenv(var)`: falsy when the variable is unset
(`None`) or set to the empty string. -/
def envTruthy (v : Option String) : Bool :=
  match v with
  | none => false
  | some s => !s.isEmpty

/-- The message of the `RuntimeError` the entry point raises for a missing
variable. -/
def missingVarMsg (v : String) : String :=
  "Missing environment variable: " ++ v ++ ". Set it before running this script."

/-- The external world as `main` sees it: whether constructing
`SpotifyCollector` (OAuth + `current_user`) succeeds, and the API pages or
payloads each endpoint would return. -/
structure World where
  authOk : Bool
  savedFirst : Page JVal
  savedRest : List (Page JVal)
  playlistsFirst : Page JVal
  playlistsRest : List (Page JVal)
  playlistItemPages : JVal → Page JVal × List (Page JVal)
  audioFeaturesApi : List JVal → JVal
  recentPayload : JVal

/-- Observable outcome of one `main()` run: the message of a raised,
uncaught exception if any (`main` raises only the configuration
`RuntimeError`; an authentication failure is caught, logged and swallowed),
whether `SpotifyCollector(...)` construction was attempted (the first
network activity), and the prefixes of the snapshot files written, in
order. -/
structure MainResult where
  error : Option String
  authAttempted : Bool
  files : List String

/-- `main()`: validate the three environment variables (raising on the
first falsy one), construct the collector (catching any exception, logging
and returning), then run the five extraction steps in order. -/
def mainEntry (env : String → Option String) (w : World) : MainResult :=
  match requiredVars.find? (fun v => !envTruthy (env v)) with
  | some v => { error := some (missingVarMsg v), authAttempted := false, files := [] }
  | none =>
    if !w.authOk then { error := none, authAttempted := true, files := [] }
    else
      let saved := collect_saved_tracks w.savedFirst w.savedRest
      let pls := collect_playlists w.playlistsFirst w.playlistsRest
      let fpt := collect_first_playlist_tracks w.playlistItemPages pls.1
      let saved_track_ids := derivedTrackIds saved.1
      let af := collect_audio_features_for_tracks w.audioFeaturesApi saved_track_ids
        "saved_tracks_audio_features"
      let rp := collect_recently_played w.recentPayload
      { error := none
        authAttempted := true
        files := saved.2 ++ pls.2 ++ fpt.files ++ af.files ++ rp.2 }

/-- Spec-side predicate for C5, written from the spec's words so the code's
comprehension guard can be compared against it: the record's `track_id` is
a non-null, non-empty string and its `is_local` flag is falsy (on these
records the flag is a bool, so falsy means `False`). -/
def specKeepForAudioFeatures (t : SavedTrackRecord) : Bool :=
  (match t.track_id with
    | JVal.str s => !s.isEmpty
    | _ => false)
    && (match t.is_local with
      | JVal.bool b => !b
      | _ => false)

/-- A concrete saved-track record with a null `track_id`, for witnesses. -/
def wRecNullId : SavedTrackRecord :=
  { added_at := .null, track_id := .null, track_name := .null, artist_ids := [],
    artist_names := [], album_id := .null, album_name := .null, duration_ms := .null,
    popularity := .null, external_url := .null, preview_url := .null,
    is_local := .bool false }

/-- A concrete local-flagged saved-track record, for witnesses. -/
def wRecLocal : SavedTrackRecord :=
  { wRecNullId with track_id := .str "x", is_local := .bool true }

/-- A concrete catalog saved-track record, for witnesses. -/
def wRecKept : SavedTrackRecord :=
  { wRecNullId with track_id := .str "y", is_local := .bool false }

/-- A quiescent world for entry-point witnesses: collector construction
fails and every endpoint would return one empty cursorless page. -/
def wQuietWorld : World :=
  { authOk := false
    savedFirst := ⟨[], false⟩
    savedRest := []
    playlistsFirst := ⟨[], false⟩
    playlistsRest := []
    playlistItemPages := fun _ => (⟨[], false⟩, [])
    audioFeaturesApi := fun _ => JVal.null
    recentPayload := JVal.obj [] }

theorem chunk_nil {α : Type} (size : Nat) : chunk ([] : List α) size = [] := by
  rw [chunk]
  simp

theorem chunk_cons {α : Type} (seq : List α) (size : Nat) (hseq : seq ≠ [])
    (hsize : size ≠ 0) :
    chunk seq size = seq.take size :: chunk (seq.drop size) size := by
  rw [chunk]
  simp [hsize, List.isEmpty_iff, hseq]

theorem chunk_flatten {α : Type} (size : Nat) (hsize : 0 < size) :
    ∀ seq : List α, (chunk seq size).flatten = seq := by
  intro seq
  generalize hn : seq.length = n
  induction n using Nat.strong_induction_on generalizing seq with
  | _ n ih =>
    by_cases hseq : seq = []
    · subst hseq
      simp [chunk_nil]
    · rw [chunk_cons seq size hseq (by omega)]
      have hlt : (seq.drop size).length < n := by
        have h0 : seq.length ≠ 0 := by
          simpa [List.length_eq_zero] using hseq
        simp only [List.length_drop]
        omega
      rw [List.flatten_cons, ih _ hlt _ rfl, List.take_append_drop]

theorem chunk_sizes {α : Type} (size : Nat) :
    ∀ seq : List α, ∀ c ∈ chunk seq size, c.length ≤ size := by
  intro seq
  generalize hn : seq.length = n
  induction n using Nat.strong_induction_on generalizing seq with
  | _ n ih =>
    by_cases hseq : seq = []
    · subst hseq
      simp [chunk_nil]
    · by_cases hsize : size = 0
      · subst hsize
        rw [chunk]
        simp [List.isEmpty_iff, hseq]
      · rw [chunk_cons seq size hseq hsize]
        intro c hc
        rcases List.mem_cons.mp hc with hc | hc
        · subst hc
          simp
        · have hlt : (seq.drop size).length < n := by
            have h0 : seq.length ≠ 0 := by
              simpa [List.length_eq_zero] using hseq
            simp only [List.length_drop]
            omega
          exact ih _ hlt _ rfl c hc

theorem chunk_count {α : Type} (size : Nat) (hsize : 0 < size) :
    ∀ seq : List α, (chunk seq size).length = (seq.length + size - 1) / size := by
  intro seq
  generalize hn : seq.length = n
  induction n using Nat.strong_induction_on generalizing seq with
  | _ n ih =>
    subst hn
    by_cases hseq : seq = []
    · subst hseq
      simp only [chunk_nil, List.length_nil]
      have : (0 + size - 1) / size = 0 := Nat.div_eq_of_lt (by omega)
      omega
    · have h0 : seq.length ≠ 0 := by
        simpa [List.length_eq_zero] using hseq
      rw [chunk_cons seq size hseq (by omega)]
      have hlt : (seq.drop size).length < seq.length := by
        simp only [List.length_drop]
        omega
      rw [List.length_cons, ih _ hlt _ rfl]
      simp only [List.length_drop]
      rcases le_or_lt seq.length size with hle | hgt
      · have e1 : seq.length - size = 0 := by omega
        have e2 : (seq.length - size + size - 1) / size = 0 := by
          rw [e1]
          exact Nat.div_eq_of_lt (by omega)
        have e3 : (seq.length + size - 1) / size = 1 :=
          Nat.div_eq_of_lt_le (by omega) (by omega)
        omega
      · have h1 : seq.length - size + size - 1 = seq.length - 1 - size + size := by omega
        have h2 : seq.length + size - 1 = seq.length - 1 - size + size + size := by omega
        have d1 : (seq.length - 1 - size + size) / size = (seq.length - 1 - size) / size + 1 :=
          Nat.add_div_right _ hsize
        have d2 : (seq.length - 1 - size + size + size) / size
            = (seq.length - 1 - size + size) / size + 1 :=
          Nat.add_div_right _ hsize
        rw [h1, h2, d2, d1]

/-- C1: for every list of strings `seq` and every batch size `≥ 1`,
`chunk(seq, size)` yields contiguous sub-lists whose in-order concatenation
is exactly `seq`, each sub-list has length at most `size`, and the number
of sub-lists is exactly `⌈|seq| / size⌉` (written `(|seq| + size - 1) / size`
in natural division), which is `0` when `seq` is empty. -/
theorem chunk_spec (seq : List String) (size : Nat) (h : 1 ≤ size) :
    (chunk seq size).flatten = seq ∧
    (∀ c ∈ chunk seq size, c.length ≤ size) ∧
    (chunk seq size).length = (seq.length + size - 1) / size ∧
    (seq = [] → chunk seq size = []) :=
  ⟨chunk_flatten size h seq, chunk_sizes size seq, chunk_count size h seq,
    fun he => he ▸ chunk_nil size⟩

/-- Witness for C1 at `seq = ["a", "b", "c"]`, `size = 2`. -/
theorem chunk_spec_witness :
    (chunk ["a", "b", "c"] 2).flatten = ["a", "b", "c"] ∧
    (∀ c ∈ chunk ["a", "b", "c"] 2, c.length ≤ 2) ∧
    (chunk ["a", "b", "c"] 2).length = ((["a", "b", "c"] : List String).length + 2 - 1) / 2 ∧
    ((["a", "b", "c"] : List String) = [] → chunk ["a", "b", "c"] 2 = []) :=
  chunk_spec ["a", "b", "c"] 2 (by decide)

theorem gatherLoop_chain {α : Type} :
    ∀ (rest : List (Page α)) (first : Page α), pagesChain (first :: rest) = true →
      gatherLoop first rest = ((rest.map Page.items).flatten, rest.length) := by
  intro rest
  induction rest with
  | nil =>
    intro first h
    simp [gatherLoop]
  | cons p rs ih =>
    intro first h
    have h1 : first.next = true := by
      have := h
      simp only [pagesChain, Bool.and_eq_true] at this
      exact this.1
    have h2 : pagesChain (p :: rs) = true := by
      have := h
      simp only [pagesChain, Bool.and_eq_true] at this
      exact this.2
    simp [gatherLoop, h1, ih p h2]

/-- C2: for every sequence of pages returned by the page-fetch operation
(every page but the last reporting a truthy continuation cursor, the last a
falsy one), `_gather_items` returns the ordered concatenation of every
page's item list, its length is the sum of the pages' item counts, and the
number of fetch calls (the initial call plus one `sp.next` per further
page) is exactly the number of pages — i.e. the loop stops exactly at the
page whose `next` is falsy. -/
theorem gather_items_spec {α : Type} (first : Page α) (rest : List (Page α))
    (h : pagesChain (first :: rest) = true) :
    (gatherItems first rest).1 = ((first :: rest).map Page.items).flatten ∧
    (gatherItems first rest).1.length
      = ((first :: rest).map (fun p => p.items.length)).sum ∧
    (gatherItems first rest).2 = (first :: rest).length := by
  have hl := gatherLoop_chain rest first h
  refine ⟨?_, ?_, ?_⟩
  · simp [gatherItems, hl]
  · simp [gatherItems, hl, List.length_flatten, Function.comp_def]
  · simp [gatherItems, hl]

/-- Witness for C2 at a two-page sequence. -/
theorem gather_items_spec_witness :
    (gatherItems (⟨["x", "y"], true⟩ : Page String) [⟨["z"], false⟩]).1
      = (((⟨["x", "y"], true⟩ : Page String) :: [⟨["z"], false⟩]).map Page.items).flatten ∧
    (gatherItems (⟨["x", "y"], true⟩ : Page String) [⟨["z"], false⟩]).1.length
      = (((⟨["x", "y"], true⟩ : Page String) :: [⟨["z"], false⟩]).map
          (fun p => p.items.length)).sum ∧
    (gatherItems (⟨["x", "y"], true⟩ : Page String) [⟨["z"], false⟩]).2
      = (((⟨["x", "y"], true⟩ : Page String) :: [⟨["z"], false⟩])).length :=
  gather_items_spec ⟨["x", "y"], true⟩ [⟨["z"], false⟩] (by decide)

theorem foldl_append_flatten {α β : Type} (f : α → List β) :
    ∀ (l : List α) (acc : List β),
      l.foldl (fun a g => a ++ f g) acc = acc ++ (l.map f).flatten := by
  intro l
  induction l with
  | nil =>
    intro acc
    simp
  | cons x xs ih =>
    intro acc
    simp [ih, List.append_assoc]

theorem chunk_map_length_150 {α : Type} (l : List α) (h : l.length = 150) :
    (chunk l 100).map List.length = [100, 50] := by
  have h1 : l ≠ [] := by
    intro he
    subst he
    simp at h
  rw [chunk_cons l 100 h1 (by omega)]
  have h2 : (l.drop 100).length = 50 := by
    simp [h]
  have h3 : l.drop 100 ≠ [] := by
    intro he
    rw [he] at h2
    simp at h2
  rw [chunk_cons (l.drop 100) 100 h3 (by omega)]
  have h4 : (l.drop 100).drop 100 = [] := by
    apply List.length_eq_zero.mp
    simp [h]
  rw [h4, chunk_nil]
  simp [List.length_take, h, h2]

theorem collect_af_nonempty (api : List JVal → JVal) (track_ids : List JVal)
    (pfx : String) (h : (track_ids.filter JVal.truthy).isEmpty = false) :
    collect_audio_features_for_tracks api track_ids pfx =
      { calls := chunk (track_ids.filter JVal.truthy) AUDIO_FEATURES_BATCH
        feats := ((chunk (track_ids.filter JVal.truthy) AUDIO_FEATURES_BATCH).map
            (fun g => ((api g).orElse (.arr [])).asList.filter JVal.truthy)).flatten
        files := [pfx] } := by
  simp only [collect_audio_features_for_tracks, h, Bool.false_eq_true, if_false]
  rw [foldl_append_flatten]
  simp

/-- C3: `collect_audio_features_for_tracks` first filters out null/empty
IDs; when nothing remains it returns an empty result with no API call and
no file; otherwise its API calls are exactly the `≤ 100`-sized chunks of
the filtered IDs in order (their concatenation being the filtered list,
their number `⌈n/100⌉`, so 150 valid IDs yield exactly the two calls of
100 and 50), the returned features are the per-batch results with falsy
(null) entries dropped, concatenated in batch order, and exactly one file
is written. -/
theorem collect_audio_features_spec (api : List JVal → JVal) (track_ids : List JVal)
    (pfx : String) :
    (track_ids.filter JVal.truthy = [] →
      collect_audio_features_for_tracks api track_ids pfx = ⟨[], [], []⟩) ∧
    (track_ids.filter JVal.truthy ≠ [] →
      (collect_audio_features_for_tracks api track_ids pfx).calls
          = chunk (track_ids.filter JVal.truthy) AUDIO_FEATURES_BATCH ∧
        (collect_audio_features_for_tracks api track_ids pfx).calls.flatten
          = track_ids.filter JVal.truthy ∧
        (∀ g ∈ (collect_audio_features_for_tracks api track_ids pfx).calls,
          g.length ≤ 100) ∧
        (collect_audio_features_for_tracks api track_ids pfx).calls.length
          = ((track_ids.filter JVal.truthy).length + 100 - 1) / 100 ∧
        (collect_audio_features_for_tracks api track_ids pfx).feats
          = ((collect_audio_features_for_tracks api track_ids pfx).calls.map
              (fun g => ((api g).orElse (.arr [])).asList.filter JVal.truthy)).flatten ∧
        (collect_audio_features_for_tracks api track_ids pfx).files = [pfx]) ∧
    ((track_ids.filter JVal.truthy).length = 150 →
      (collect_audio_features_for_tracks api track_ids pfx).calls.map List.length
        = [100, 50]) := by
  refine ⟨?_, ?_, ?_⟩
  · intro h
    simp [collect_audio_features_for_tracks, h]
  · intro h
    have he : (track_ids.filter JVal.truthy).isEmpty = false := by
      simpa [List.isEmpty_iff] using h
    rw [collect_af_nonempty api track_ids pfx he]
    refine ⟨rfl, ?_, ?_, ?_, rfl, rfl⟩
    · exact chunk_flatten 100 (by omega) _
    · exact chunk_sizes 100 _
    · exact chunk_count 100 (by omega) _
  · intro h
    have he : (track_ids.filter JVal.truthy).isEmpty = false := by
      have : track_ids.filter JVal.truthy ≠ [] := by
        intro he2
        rw [he2] at h
        simp at h
      simpa [List.isEmpty_iff] using this
    rw [collect_af_nonempty api track_ids pfx he]
    exact chunk_map_length_150 _ h

/-- Witness for C3 at three IDs (one valid, one null, one empty) and an
API returning one feature row and one null per batch. -/
theorem collect_audio_features_spec_witness :
    (([JVal.str "t1", JVal.null, JVal.str ""].filter JVal.truthy = []) →
      collect_audio_features_for_tracks
        (fun _ => JVal.arr [JVal.obj [("id", JVal.str "f1")], JVal.null])
        [JVal.str "t1", JVal.null, JVal.str ""] "saved_tracks_audio_features"
        = ⟨[], [], []⟩) ∧
    (([JVal.str "t1", JVal.null, JVal.str ""].filter JVal.truthy ≠ []) →
      (collect_audio_features_for_tracks
          (fun _ => JVal.arr [JVal.obj [("id", JVal.str "f1")], JVal.null])
          [JVal.str "t1", JVal.null, JVal.str ""] "saved_tracks_audio_features").calls
          = chunk ([JVal.str "t1", JVal.null, JVal.str ""].filter JVal.truthy)
              AUDIO_FEATURES_BATCH ∧
        (collect_audio_features_for_tracks
          (fun _ => JVal.arr [JVal.obj [("id", JVal.str "f1")], JVal.null])
          [JVal.str "t1", JVal.null, JVal.str ""] "saved_tracks_audio_features").calls.flatten
          = [JVal.str "t1", JVal.null, JVal.str ""].filter JVal.truthy ∧
        (∀ g ∈ (collect_audio_features_for_tracks
          (fun _ => JVal.arr [JVal.obj [("id", JVal.str "f1")], JVal.null])
          [JVal.str "t1", JVal.null, JVal.str ""] "saved_tracks_audio_features").calls,
          g.length ≤ 100) ∧
        (collect_audio_features_for_tracks
          (fun _ => JVal.arr [JVal.obj [("id", JVal.str "f1")], JVal.null])
          [JVal.str "t1", JVal.null, JVal.str ""] "saved_tracks_audio_features").calls.length
          = (([JVal.str "t1", JVal.null, JVal.str ""].filter JVal.truthy).length + 100 - 1)
              / 100 ∧
        (collect_audio_features_for_tracks
          (fun _ => JVal.arr [JVal.obj [("id", JVal.str "f1")], JVal.null])
          [JVal.str "t1", JVal.null, JVal.str ""] "saved_tracks_audio_features").feats
          = ((collect_audio_features_for_tracks
              (fun _ => JVal.arr [JVal.obj [("id", JVal.str "f1")], JVal.null])
              [JVal.str "t1", JVal.null, JVal.str ""]
              "saved_tracks_audio_features").calls.map
              (fun g => (((fun _ => JVal.arr [JVal.obj [("id", JVal.str "f1")], JVal.null]) g
                ).orElse (.arr [])).asList.filter JVal.truthy)).flatten ∧
        (collect_audio_features_for_tracks
          (fun _ => JVal.arr [JVal.obj [("id", JVal.str "f1")], JVal.null])
          [JVal.str "t1", JVal.null, JVal.str ""] "saved_tracks_audio_features").files
          = ["saved_tracks_audio_features"]) ∧
    (([JVal.str "t1", JVal.null, JVal.str ""].filter JVal.truthy).length = 150 →
      (collect_audio_features_for_tracks
        (fun _ => JVal.arr [JVal.obj [("id", JVal.str "f1")], JVal.null])
        [JVal.str "t1", JVal.null, JVal.str ""] "saved_tracks_audio_features").calls.map
        List.length = [100, 50]) :=
  collect_audio_features_spec
    (fun _ => JVal.arr [JVal.obj [("id", JVal.str "f1")], JVal.null])
    [JVal.str "t1", JVal.null, JVal.str ""] "saved_tracks_audio_features"

theorem length_filterMap_eq_length_filter {α β : Type} (f : α → Option β) (p : α → Bool)
    (h : ∀ x, (f x).isSome = p x) :
    ∀ l : List α, (l.filterMap f).length = (l.filter p).length := by
  intro l
  induction l with
  | nil =>
    simp
  | cons x xs ih =>
    have hx := h x
    cases hfx : f x with
    | none =>
      rw [hfx] at hx
      simp only [Option.isSome_none] at hx
      rw [List.filterMap_cons_none hfx, List.filter_cons_of_neg (by simp [← hx])]
      exact ih
    | some b =>
      rw [hfx] at hx
      simp only [Option.isSome_some] at hx
      rw [List.filterMap_cons_some hfx, List.filter_cons_of_pos (by simp [← hx])]
      simpa using ih

theorem normalizeSavedTrack_isSome (row : JVal) :
    (normalizeSavedTrack row).isSome = ((row.get "track").orElse (.obj [])).truthy := by
  unfold normalizeSavedTrack
  cases h : ((row.get "track").orElse (.obj [])).truthy with
  | false => simp [h]
  | true => simp [h]

/-- C4: saved-tracks normalization keeps exactly the raw entries whose
nested `track` (after the `or {}` fallback) is truthy — so the record count
is the count of such entries and never exceeds the raw entry count — it
drops an entry iff that `track` is empty/absent/falsy, it defaults
`is_local` to `False` when the track dict omits the key, and the spec's
one-element example page normalizes to the one expected flat record with
`is_local = false`. -/
theorem collect_saved_tracks_spec (first : Page JVal) (rest : List (Page JVal)) :
    (collect_saved_tracks first rest).1.length
        = ((gatherItems first rest).1.filter
            (fun row => ((row.get "track").orElse (.obj [])).truthy)).length ∧
    (collect_saved_tracks first rest).1.length ≤ (gatherItems first rest).1.length ∧
    (∀ row : JVal, normalizeSavedTrack row = none ↔
      ((row.get "track").orElse (.obj [])).truthy = false) ∧
    (∀ row : JVal, ∀ fs : List (String × JVal),
      (row.get "track").orElse (.obj []) = .obj fs →
      (JVal.obj fs).truthy = true →
      fs.lookup "is_local" = none →
      ∃ r, normalizeSavedTrack row = some r ∧ r.is_local = .bool false) ∧
    collect_saved_tracks
        ⟨[JVal.obj [("added_at", .str "2024-01-01T00:00:00Z"),
          ("track", .obj [("id", .str "t1"), ("name", .str "Song A"),
            ("artists", .arr [.obj [("id", .str "a1"), ("name", .str "Artist A")]]),
            ("album", .obj [("id", .str "al1"), ("name", .str "Album A")]),
            ("duration_ms", .num 200000), ("popularity", .num 50),
            ("external_urls", .obj [("spotify", .str "url1")]),
            ("preview_url", .null), ("is_local", .bool false)])]], false⟩ []
      = ([{ added_at := .str "2024-01-01T00:00:00Z", track_id := .str "t1",
            track_name := .str "Song A", artist_ids := [.str "a1"],
            artist_names := [.str "Artist A"], album_id := .str "al1",
            album_name := .str "Album A", duration_ms := .num 200000,
            popularity := .num 50, external_url := .str "url1",
            preview_url := .null, is_local := .bool false }], ["saved_tracks"]) := by
  refine ⟨?_, ?_, ?_, ?_, ?_⟩
  · exact length_filterMap_eq_length_filter normalizeSavedTrack _
      (fun row => normalizeSavedTrack_isSome row) _
  · have h1 := length_filterMap_eq_length_filter normalizeSavedTrack _
      (fun row => normalizeSavedTrack_isSome row) (gatherItems first rest).1
    calc (collect_saved_tracks first rest).1.length
        = ((gatherItems first rest).1.filter
            (fun row => ((row.get "track").orElse (.obj [])).truthy)).length := h1
      _ ≤ (gatherItems first rest).1.length := List.length_filter_le _ _
  · intro row
    have h := normalizeSavedTrack_isSome row
    constructor
    · intro hn
      rw [hn] at h
      simpa using h.symm
    · intro ht
      rw [ht] at h
      cases hn : normalizeSavedTrack row with
      | none => rfl
      | some r =>
        rw [hn] at h
        simp at h
  · intro row fs htr htruthy hlook
    have hs : (normalizeSavedTrack row).isSome = true := by
      rw [normalizeSavedTrack_isSome, htr, htruthy]
    cases hn : normalizeSavedTrack row with
    | none =>
      rw [hn] at hs
      simp at hs
    | some r =>
      refine ⟨r, rfl, ?_⟩
      simp only [normalizeSavedTrack] at hn
      rw [htr, if_pos htruthy] at hn
      injection hn with h2
      rw [← h2]
      simp [JVal.getD, hlook]
  · rfl

/-- Witness for C4 at a two-entry page: one full entry whose track omits
`is_local`, one entry with an empty track dict. -/
theorem collect_saved_tracks_spec_witness :
    (collect_saved_tracks
        ⟨[JVal.obj [("added_at", .str "a"), ("track", .obj [("id", .str "t1")])],
          JVal.obj [("track", .obj [])]], false⟩ []).1.length
        = ((gatherItems
            (⟨[JVal.obj [("added_at", .str "a"), ("track", .obj [("id", .str "t1")])],
              JVal.obj [("track", .obj [])]], false⟩ : Page JVal) []).1.filter
            (fun row => ((row.get "track").orElse (.obj [])).truthy)).length ∧
    (normalizeSavedTrack (JVal.obj [("track", .obj [])]) = none ↔
      (((JVal.obj [("track", .obj [])]).get "track").orElse (.obj [])).truthy = false) ∧
    (∃ r, normalizeSavedTrack
        (JVal.obj [("added_at", .str "a"), ("track", .obj [("id", .str "t1")])]) = some r ∧
      r.is_local = .bool false) :=
  ⟨(collect_saved_tracks_spec
      ⟨[JVal.obj [("added_at", .str "a"), ("track", .obj [("id", .str "t1")])],
        JVal.obj [("track", .obj [])]], false⟩ []).1,
    (collect_saved_tracks_spec
      ⟨[JVal.obj [("added_at", .str "a"), ("track", .obj [("id", .str "t1")])],
        JVal.obj [("track", .obj [])]], false⟩ []).2.2.1 (JVal.obj [("track", .obj [])]),
    (collect_saved_tracks_spec
      ⟨[JVal.obj [("added_at", .str "a"), ("track", .obj [("id", .str "t1")])],
        JVal.obj [("track", .obj [])]], false⟩ []).2.2.2.1
      (JVal.obj [("added_at", .str "a"), ("track", .obj [("id", .str "t1")])])
      [("id", .str "t1")] rfl rfl rfl⟩

/-- C5: the entry point's derived ID list contains exactly the `track_id`
values of the saved-track records whose `track_id` is a non-null,
non-empty value and whose `is_local` flag is falsy (records here carry a
null-or-string `track_id` and a boolean `is_local`, as the normalizer
produces from API data); in particular the comprehension's guard rejects
every record with `track_id = null` and every record with
`is_local = true`. -/
theorem derived_track_ids_spec (saved : List SavedTrackRecord)
    (hid : ∀ t ∈ saved, t.track_id = .null ∨ ∃ s, t.track_id = .str s)
    (hloc : ∀ t ∈ saved, ∃ b, t.is_local = .bool b) :
    derivedTrackIds saved
        = (saved.filter specKeepForAudioFeatures).map (fun t => t.track_id) ∧
    (∀ t : SavedTrackRecord, t.track_id = JVal.null →
      (t.track_id.truthy && !t.is_local.truthy) = false) ∧
    (∀ t : SavedTrackRecord, t.is_local = JVal.bool true →
      (t.track_id.truthy && !t.is_local.truthy) = false) := by
  refine ⟨?_, ?_, ?_⟩
  · unfold derivedTrackIds
    congr 1
    apply List.filter_congr
    intro t ht
    rcases hid t ht with h | ⟨s, h⟩ <;> rcases hloc t ht with ⟨b, hb⟩ <;>
      simp [specKeepForAudioFeatures, h, hb, JVal.truthy]
  · intro t h
    simp [h, JVal.truthy]
  · intro t h
    simp [h, JVal.truthy]

/-- Witness for C5 at a three-record list: null `track_id`, local-flagged,
and a kept catalog record; only the kept record's ID survives. -/
theorem derived_track_ids_spec_witness :
    derivedTrackIds [wRecNullId, wRecLocal, wRecKept]
        = (([wRecNullId, wRecLocal, wRecKept].filter specKeepForAudioFeatures).map
            (fun t => t.track_id)) ∧
    derivedTrackIds [wRecNullId, wRecLocal, wRecKept] = [JVal.str "y"] :=
  ⟨(derived_track_ids_spec [wRecNullId, wRecLocal, wRecKept]
      (by
        intro t ht
        fin_cases ht
        · exact Or.inl rfl
        · exact Or.inr ⟨"x", rfl⟩
        · exact Or.inr ⟨"y", rfl⟩)
      (by
        intro t ht
        fin_cases ht
        · exact ⟨false, rfl⟩
        · exact ⟨true, rfl⟩
        · exact ⟨false, rfl⟩)).1,
    rfl⟩

/-- C6: `collect_first_playlist_tracks` on an empty playlist list returns
no records and writes no file (a logged early exit, no exception — the
model is a total function); on a non-empty list it selects exactly the
first entry of the list as given (`playlists[0]`, no sorting or
reordering) before fetching that playlist's items. -/
theorem collect_first_playlist_tracks_spec
    (fetchPages : JVal → Page JVal × List (Page JVal))
    (playlists : List PlaylistRecord) :
    (playlists = [] →
      collect_first_playlist_tracks fetchPages playlists
        = { selected := none, records := none, files := [] }) ∧
    (collect_first_playlist_tracks fetchPages playlists).selected
      = playlists.head? := by
  constructor
  · intro h
    subst h
    rfl
  · cases playlists with
    | nil => rfl
    | cons p ps => rfl

/-- Witness for C6 at the empty playlist list. -/
theorem collect_first_playlist_tracks_spec_witness :
    (([] : List PlaylistRecord) = [] →
      collect_first_playlist_tracks (fun _ => (⟨[], false⟩, [])) []
        = { selected := none, records := none, files := [] }) ∧
    (collect_first_playlist_tracks (fun _ => (⟨[], false⟩, []))
        ([] : List PlaylistRecord)).selected
      = ([] : List PlaylistRecord).head? :=
  collect_first_playlist_tracks_spec (fun _ => (⟨[], false⟩, [])) []

/-- C7: when the validation loop finds a required environment variable
whose value is falsy (unset or empty), `main` raises the `RuntimeError`
whose message names that variable, before constructing the collector (so
before any API call or network activity), no extraction step runs and no
file is written; the named variable is indeed one of the three required
ones and is indeed missing. -/
theorem main_config_error_spec (env : String → Option String) (w : World) (v : String)
    (h : requiredVars.find? (fun x => !envTruthy (env x)) = some v) :
    mainEntry env w
        = { error := some (missingVarMsg v), authAttempted := false, files := [] } ∧
    missingVarMsg v
        = "Missing environment variable: " ++ v ++ ". Set it before running this script." ∧
    v ∈ requiredVars ∧ envTruthy (env v) = false := by
  refine ⟨?_, rfl, List.mem_of_find?_eq_some h, ?_⟩
  · unfold mainEntry
    rw [h]
  · have := List.find?_some h
    simpa using this

/-- Witness for C7: only the client ID is set, so the loop stops at the
client secret. -/
theorem main_config_error_spec_witness :
    mainEntry (fun x => if x = "SPOTIPY_CLIENT_ID" then some "cid" else none) wQuietWorld
        = { error := some (missingVarMsg "SPOTIPY_CLIENT_SECRET"), authAttempted := false,
            files := [] } ∧
    missingVarMsg "SPOTIPY_CLIENT_SECRET"
        = "Missing environment variable: " ++ "SPOTIPY_CLIENT_SECRET"
            ++ ". Set it before running this script." ∧
    "SPOTIPY_CLIENT_SECRET" ∈ requiredVars ∧
    envTruthy ((fun x => if x = "SPOTIPY_CLIENT_ID" then some "cid" else none)
        "SPOTIPY_CLIENT_SECRET") = false :=
  main_config_error_spec (fun x => if x = "SPOTIPY_CLIENT_ID" then some "cid" else none)
    wQuietWorld "SPOTIPY_CLIENT_SECRET" (by rfl)

/-- C8: when all three required variables are set but constructing the
collector fails (any exception during authentication), `main` catches the
exception, logs it and returns normally: the run raises nothing
(`error = none`), attempts authentication, runs no extraction step and
writes no dataset file — unlike a configuration error, which `main`
surfaces as a raised error (see the C7 theorem). -/
theorem main_auth_failure_spec (env : String → Option String) (w : World)
    (h1 : requiredVars.find? (fun x => !envTruthy (env x)) = none)
    (h2 : w.authOk = false) :
    mainEntry env w = { error := none, authAttempted := true, files := [] } := by
  unfold mainEntry
  rw [h1, h2]
  rfl

/-- Witness for C8: all variables set, authentication failing. -/
theorem main_auth_failure_spec_witness :
    mainEntry (fun _ => some "configured") wQuietWorld
      = { error := none, authAttempted := true, files := [] } :=
  main_auth_failure_spec (fun _ => some "configured") wQuietWorld (by rfl) (by rfl)

theorem digitChar_mod_ten_isDigit (x : Nat) : (Nat.digitChar (x % 10)).isDigit = true := by
  have hb : ∀ m : Nat, m < 10 → (Nat.digitChar m).isDigit = true := by decide
  exact hb _ (Nat.mod_lt x (by omega))

/-- C9: `dump_json` writes into the fixed `spotify_data` directory a file
named exactly `<prefix>_<YYYYMMDD_HHMMSS>.json` — the timestamp is 15
characters, digits in the 8 date and 6 time positions around one
underscore — and each extraction method that does not take an early exit
writes exactly one snapshot per invocation: saved tracks, playlists and
recently played always write one file; first-playlist tracks writes one
when the playlist list is non-empty; audio features writes one when a
valid ID remains after filtering. -/
theorem dump_json_spec (pfx : String) (t : DateTime)
    (first : Page JVal) (rest : List (Page JVal)) (payload : JVal)
    (fetchPages : JVal → Page JVal × List (Page JVal))
    (playlists : List PlaylistRecord) (api : List JVal → JVal) (ids : List JVal) :
    dump_json_path pfx t = "spotify_data" ++ "/" ++ (pfx ++ "_" ++ timestamp t ++ ".json") ∧
    (timestamp t).length = 15 ∧
    (timestampChars t).get? 8 = some '_' ∧
    (∀ c ∈ (timestampChars t).take 8, c.isDigit = true) ∧
    (∀ c ∈ (timestampChars t).drop 9, c.isDigit = true) ∧
    (collect_saved_tracks first rest).2.length = 1 ∧
    (collect_playlists first rest).2.length = 1 ∧
    (collect_recently_played payload).2.length = 1 ∧
    (playlists ≠ [] →
      (collect_first_playlist_tracks fetchPages playlists).files.length = 1) ∧
    (ids.filter JVal.truthy ≠ [] →
      (collect_audio_features_for_tracks api ids pfx).files.length = 1) := by
  refine ⟨rfl, rfl, rfl, ?_, ?_, rfl, rfl, rfl, ?_, ?_⟩
  · intro c hc
    simp only [timestampChars, List.take, List.mem_cons, List.not_mem_nil, or_false] at hc
    rcases hc with h | h | h | h | h | h | h | h <;> subst h <;>
      exact digitChar_mod_ten_isDigit _
  · intro c hc
    simp only [timestampChars, List.drop, List.mem_cons, List.not_mem_nil, or_false] at hc
    rcases hc with h | h | h | h | h | h <;> subst h <;>
      exact digitChar_mod_ten_isDigit _
  · intro h
    cases playlists with
    | nil => exact absurd rfl h
    | cons p ps => rfl
  · intro h
    have he : (ids.filter JVal.truthy).isEmpty = false := by
      simpa [List.isEmpty_iff] using h
    rw [collect_af_nonempty api ids pfx he]
    rfl

/-- Witness for C9 at a concrete clock reading, empty cursorless pages, a
one-entry playlist list and one valid ID. -/
theorem dump_json_spec_witness :
    dump_json_path "saved_tracks" ⟨2024, 1, 2, 3, 4, 5⟩
        = "spotify_data" ++ "/"
            ++ ("saved_tracks" ++ "_" ++ timestamp ⟨2024, 1, 2, 3, 4, 5⟩ ++ ".json") ∧
    (timestamp (⟨2024, 1, 2, 3, 4, 5⟩ : DateTime)).length = 15 ∧
    (timestampChars ⟨2024, 1, 2, 3, 4, 5⟩).get? 8 = some '_' ∧
    (∀ c ∈ (timestampChars ⟨2024, 1, 2, 3, 4, 5⟩).take 8, c.isDigit = true) ∧
    (∀ c ∈ (timestampChars ⟨2024, 1, 2, 3, 4, 5⟩).drop 9, c.isDigit = true) ∧
    (collect_saved_tracks ⟨[], false⟩ []).2.length = 1 ∧
    (collect_playlists ⟨[], false⟩ []).2.length = 1 ∧
    (collect_recently_played (JVal.obj [])).2.length = 1 ∧
    ([normalizePlaylist (JVal.obj [("id", JVal.str "p1")])] ≠ [] →
      (collect_first_playlist_tracks (fun _ => (⟨[], false⟩, []))
        [normalizePlaylist (JVal.obj [("id", JVal.str "p1")])]).files.length = 1) ∧
    ([JVal.str "t1"].filter JVal.truthy ≠ [] →
      (collect_audio_features_for_tracks (fun _ => JVal.null) [JVal.str "t1"]
        "saved_tracks").files.length = 1) :=
  dump_json_spec "saved_tracks" ⟨2024, 1, 2, 3, 4, 5⟩ ⟨[], false⟩ [] (JVal.obj [])
    (fun _ => (⟨[], false⟩, [])) [normalizePlaylist (JVal.obj [("id", JVal.str "p1")])]
    (fun _ => JVal.null) [JVal.str "t1"]

theorem JVal.getD_of_falsy (v : JVal) (h : v.truthy = false) (k : String) (d : JVal) :
    v.getD k d = d := by
  cases v with
  | null => rfl
  | str s => rfl
  | num n => rfl
  | bool b => rfl
  | arr xs => rfl
  | obj fs =>
    have hfs : fs = [] := by
      simpa [JVal.truthy, List.isEmpty_iff] using h
    subst hfs
    rfl

theorem JVal.get_of_falsy (v : JVal) (h : v.truthy = false) (k : String) :
    v.get k = .null :=
  v.getD_of_falsy h k .null

/-- C10: recently-played normalization applies no data-quality filter: the
output record count always equals the item count of the API response, a
row whose nested track (after the `or {}` fallbacks) is empty or absent
still yields a record — with every track-derived field null and the artist
lists empty — whereas the same track-less row is dropped by saved-tracks
normalization. -/
theorem collect_recently_played_no_filter (payload : JVal) :
    (collect_recently_played payload).1.length
        = ((payload.orElse (.obj [])).getD "items" (.arr [])).asList.length ∧
    (∀ row : JVal,
      (((row.orElse (.obj [])).get "track").orElse (.obj [])).truthy = false →
      (normalizeRecentlyPlayed row).track_id = .null ∧
      (normalizeRecentlyPlayed row).track_name = .null ∧
      (normalizeRecentlyPlayed row).artist_ids = [] ∧
      (normalizeRecentlyPlayed row).artist_names = [] ∧
      (normalizeRecentlyPlayed row).album_id = .null ∧
      (normalizeRecentlyPlayed row).album_name = .null) ∧
    (∀ row : JVal,
      ((row.get "track").orElse (.obj [])).truthy = false →
      normalizeSavedTrack row = none ∧
      (collect_recently_played (JVal.obj [("items", JVal.arr [row])])).1.length = 1) := by
  refine ⟨?_, ?_, ?_⟩
  · simp [collect_recently_played]
  · intro row h
    refine ⟨?_, ?_, ?_, ?_, ?_, ?_⟩
    · show ((((row.orElse (.obj [])).get "track").orElse (.obj [])).get "id") = JVal.null
      exact JVal.get_of_falsy _ h "id"
    · show ((((row.orElse (.obj [])).get "track").orElse (.obj [])).get "name") = JVal.null
      exact JVal.get_of_falsy _ h "name"
    · show ((((row.orElse (.obj [])).get "track").orElse (.obj [])).getD "artists"
          (.arr [])).asList.map (fun a => a.get "id") = []
      rw [JVal.getD_of_falsy _ h]
      rfl
    · show ((((row.orElse (.obj [])).get "track").orElse (.obj [])).getD "artists"
          (.arr [])).asList.map (fun a => a.get "name") = []
      rw [JVal.getD_of_falsy _ h]
      rfl
    · show (((((row.orElse (.obj [])).get "track").orElse (.obj [])).get "album").orElse
          (.obj [])).get "id" = JVal.null
      rw [JVal.get_of_falsy _ h "album"]
      rfl
    · show (((((row.orElse (.obj [])).get "track").orElse (.obj [])).get "album").orElse
          (.obj [])).get "name" = JVal.null
      rw [JVal.get_of_falsy _ h "album"]
      rfl
  · intro row h
    constructor
    · have hs := normalizeSavedTrack_isSome row
      rw [h] at hs
      cases hn : normalizeSavedTrack row with
      | none => rfl
      | some r =>
        rw [hn] at hs
        simp at hs
    · rfl

/-- Witness for C10 at a payload whose two items both lack a usable
track. -/
theorem collect_recently_played_no_filter_witness :
    (collect_recently_played
        (JVal.obj [("items", JVal.arr
          [JVal.obj [("played_at", .str "p"), ("track", .obj [])],
            JVal.obj [("played_at", .str "q")]])])).1.length
        = (((JVal.obj [("items", JVal.arr
            [JVal.obj [("played_at", .str "p"), ("track", .obj [])],
              JVal.obj [("played_at", .str "q")]])]).orElse (.obj [])).getD "items"
            (.arr [])).asList.length ∧
    ((normalizeRecentlyPlayed
        (JVal.obj [("played_at", .str "p"), ("track", .obj [])])).track_id = .null ∧
      (normalizeRecentlyPlayed
        (JVal.obj [("played_at", .str "p"), ("track", .obj [])])).track_name = .null ∧
      (normalizeRecentlyPlayed
        (JVal.obj [("played_at", .str "p"), ("track", .obj [])])).artist_ids = [] ∧
      (normalizeRecentlyPlayed
        (JVal.obj [("played_at", .str "p"), ("track", .obj [])])).artist_names = [] ∧
      (normalizeRecentlyPlayed
        (JVal.obj [("played_at", .str "p"), ("track", .obj [])])).album_id = .null ∧
      (normalizeRecentlyPlayed
        (JVal.obj [("played_at", .str "p"), ("track", .obj [])])).album_name = .null) ∧
    (normalizeSavedTrack (JVal.obj [("played_at", .str "p"), ("track", .obj [])]) = none ∧
      (collect_recently_played (JVal.obj [("items", JVal.arr
        [JVal.obj [("played_at", .str "p"), ("track", .obj [])]])])).1.length = 1) :=
  ⟨(collect_recently_played_no_filter
      (JVal.obj [("items", JVal.arr
        [JVal.obj [("played_at", .str "p"), ("track", .obj [])],
          JVal.obj [("played_at", .str "q")]])])).1,
    (collect_recently_played_no_filter
      (JVal.obj [("items", JVal.arr
        [JVal.obj [("played_at", .str "p"), ("track", .obj [])],
          JVal.obj [("played_at", .str "q")]])])).2.1
      (JVal.obj [("played_at", .str "p"), ("track", .obj [])]) rfl,
    (collect_recently_played_no_filter
      (JVal.obj [("items", JVal.arr
        [JVal.obj [("played_at", .str "p"), ("track", .obj [])],
          JVal.obj [("played_at", .str "q")]])])).2.2
      (JVal.obj [("played_at", .str "p"), ("track", .obj [])]) rfl⟩
